import Mathlib

/-!
Verification development for the EstudioDM OCR PDF-extraction repository.

The repository parses bank-statement text (Santander and HSBC layouts) into
movement records via ordered regex matching and a per-line reconciliation
state machine, and aggregates the result into a per-reference summary.

This file gives a shallow embedding of the relevant code:
* the Python regexes are embedded as explicit pattern ASTs (`RE`) run by a
  fuel-bounded backtracking matcher `mRE` reproducing Python `re` semantics
  (ordered alternation, greedy/lazy repetition, capture groups recorded on
  the successful path only, `match` anchored at position 0, `search`
  trying successive start positions, leftmost match);
* money values are embedded as exact rationals (`ℚ`): the Python floats at
  the magnitudes handled here behave as the exact decimals the code
  manipulates, and `float(...)` string parsing is embedded on the token
  sublanguage the regex captures can produce (optional sign, digits, at
  most one decimal point; no exponents, underscores, inf or nan, which
  cannot occur in a capture);
* a Python exception aborting a parse (e.g. `float` raising `ValueError`)
  is embedded as `Option.none`.
-/

namespace OCRExtract

/-- Python `\s` / `str.strip()` whitespace (ASCII part; the inputs handled
here are ASCII apart from the corrupted literals discussed below). -/
def isPyWs (c : Char) : Bool :=
  c = ' ' ∨ c = '\t' ∨ c = '\n' ∨ c = '\r' ∨ c = '\x0b' ∨ c = '\x0c'

/-- Python `str.strip()`. -/
def pyStrip (s : List Char) : List Char :=
  ((s.dropWhile isPyWs).reverse.dropWhile isPyWs).reverse

/-- One step of Python `str.replace`: leftmost, non-overlapping occurrences
of `pat` replaced by `repl`.  Fuel-bounded (fuel `s.length` suffices). -/
def replaceSeqF : Nat → List Char → List Char → List Char → List Char
  | 0, _, _, s => s
  | _ + 1, _, _, [] => []
  | f + 1, pat, repl, c :: rest =>
      if pat ≠ [] ∧ pat.isPrefixOf (c :: rest) then
        repl ++ replaceSeqF f pat repl ((c :: rest).drop pat.length)
      else
        c :: replaceSeqF f pat repl rest

/-- Python `s.replace(pat, repl)` (for non-empty `pat`). -/
def pyReplace (s pat repl : List Char) : List Char :=
  replaceSeqF s.length pat repl s

/-- Python `str.lower()` restricted to ASCII.  The code only compares
lowered text against pure-ASCII marker phrases, and non-ASCII characters
never lower onto ASCII, so equality outcomes agree with Python. -/
def lowerChar (c : Char) : Char :=
  if 'A' ≤ c ∧ c ≤ 'Z' then Char.ofNat (c.toNat + 32) else c

/-- Python `str.lower()` on a string (ASCII case mapping, see `lowerChar`). -/
def pyLower (s : List Char) : List Char := s.map lowerChar

/-- Numeric value of a digit string (empty means 0, as in `float("1.")`). -/
def digitsToNat (s : List Char) : Nat :=
  s.foldl (fun n c => 10 * n + (c.toNat - '0'.toNat)) 0

/-- Python `float(str)` on the token sublanguage reachable from the money
regex captures after normalization: optional surrounding whitespace,
optional sign, then digits with at most one `.` and at least one digit.
Returns `none` where Python raises `ValueError`. -/
def parsePyFloat (s : List Char) : Option ℚ :=
  let t := pyStrip s
  let core : List Char → Option ℚ := fun u =>
    let intPart := u.takeWhile Char.isDigit
    let rest := u.dropWhile Char.isDigit
    match rest with
    | [] => if intPart = [] then none else some (digitsToNat intPart : ℚ)
    | '.' :: frac =>
        if frac.all Char.isDigit ∧ (intPart ≠ [] ∨ frac ≠ []) then
          some ((digitsToNat intPart : ℚ) + (digitsToNat frac : ℚ) / (10 : ℚ) ^ frac.length)
        else none
    | _ => none
  match t with
  | '-' :: u => (core u).map (fun q => -q)
  | '+' :: u => core u
  | u => core u

/-- Round to the nearest integer, ties to even (Python `round` / numpy). -/
def roundHalfEven (q : ℚ) : ℤ :=
  let f := ⌊q⌋
  let r := q - (f : ℚ)
  if r < 1 / 2 then f
  else if 1 / 2 < r then f + 1
  else if f % 2 = 0 then f else f + 1

/-- Python `round(q, k)` / pandas `.round(k)` on exact decimals. -/
def pyRoundAt (k : Nat) (q : ℚ) : ℚ :=
  (roundHalfEven (q * (10 : ℚ) ^ k) : ℚ) / (10 : ℚ) ^ k

/-! ## Regex engine

A small pattern AST covering exactly the constructs used by the source
regexes, with a fuel-bounded CPS backtracking matcher.  Fuel only bounds
the nesting depth along one search path (backtracking restarts from the
fuel captured at the choice point), so a fuel linear in the input length
is always sufficient for these patterns, whose repetition bodies all
consume at least one character. -/

/-- Pattern AST: `cls` is a single-character class, `alt` is Python's
ordered alternation, `opt`/`star` are greedy, `starL` is lazy, `grp`
records a numbered capture, `eos` is the `$` anchor. -/
inductive RE where
  | eps : RE
  | cls (p : Char → Bool) : RE
  | seq (a b : RE) : RE
  | alt (a b : RE) : RE
  | opt (a : RE) : RE
  | star (a : RE) : RE
  | starL (a : RE) : RE
  | grp (n : Nat) (a : RE) : RE
  | eos : RE

/-- Capture environment: most recent binding of a group number first. -/
abbrev Caps := List (Nat × List Char)

/-- Value of group `n` (Python `m.group(n)`, `none` if it did not
participate in the match). -/
def getCap (n : Nat) (caps : Caps) : Option (List Char) :=
  (caps.find? (fun p => p.1 = n)).map (·.2)

/-- Backtracking matcher.  `k` is the continuation receiving the rest of
the input and the captures of the path.  Greedy repetition tries the
longer extension first, lazy tries the continuation first; alternation
tries the left branch first; captures are threaded per path, so a group
matched on a failed branch does not survive, as in Python. -/
def mRE : Nat → RE → List Char → Caps → (List Char → Caps → Option Caps) → Option Caps
  | 0, _, _, _, _ => none
  | _ + 1, .eps, s, caps, k => k s caps
  | _ + 1, .cls p, s, caps, k =>
      match s with
      | [] => none
      | c :: rest => if p c then k rest caps else none
  | f + 1, .seq a b, s, caps, k =>
      mRE f a s caps (fun s' caps' => mRE f b s' caps' k)
  | f + 1, .alt a b, s, caps, k =>
      match mRE f a s caps k with
      | some r => some r
      | none => mRE f b s caps k
  | f + 1, .opt a, s, caps, k =>
      match mRE f a s caps k with
      | some r => some r
      | none => k s caps
  | f + 1, .star a, s, caps, k =>
      match mRE f a s caps
          (fun s' caps' =>
            if s'.length < s.length then mRE f (.star a) s' caps' k else none) with
      | some r => some r
      | none => k s caps
  | f + 1, .starL a, s, caps, k =>
      match k s caps with
      | some r => some r
      | none =>
          mRE f a s caps
            (fun s' caps' =>
              if s'.length < s.length then mRE f (.starL a) s' caps' k else none)
  | f + 1, .grp n a, s, caps, k =>
      mRE f a s caps (fun s' caps' => k s' ((n, s.take (s.length - s'.length)) :: caps'))
  | _ + 1, .eos, s, caps, k =>
      match s with
      | [] => k [] caps
      | _ => none

/-- Fuel sufficient for the source patterns on input `s` (see `mRE`). -/
def reFuel (s : List Char) : Nat := 16 * (s.length + 64)

/-- Python `pattern.match(s)`: anchored at position 0, any remainder. -/
def reMatch (r : RE) (s : List Char) : Option Caps :=
  mRE (reFuel s) r s [] (fun _ caps => some caps)

/-- `search` helper: try a match at each successive start position. -/
def reSearchAux (r : RE) (fuel : Nat) : List Char → Option Caps
  | [] => mRE fuel r [] [] (fun _ caps => some caps)
  | c :: rest =>
      match mRE fuel r (c :: rest) [] (fun _ caps => some caps) with
      | some caps => some caps
      | none => reSearchAux r fuel rest

/-- Python `pattern.search(s)`: leftmost match. -/
def reSearch (r : RE) (s : List Char) : Option Caps :=
  reSearchAux r (reFuel s) s

/-- `r+` (greedy). -/
def rplus (r : RE) : RE := .seq r (.star r)

/-- `r+?` (lazy, used for `.+?`). -/
def rplusL (r : RE) : RE := .seq r (.starL r)

/-- Concatenation of a pattern list. -/
def rcat (l : List RE) : RE := l.foldr RE.seq .eps

/-- Literal string pattern. -/
def rlit (s : List Char) : RE :=
  rcat (s.map (fun c => RE.cls (fun x => x = c)))

/-- Case-insensitive literal (ASCII), for `re.IGNORECASE` literals. -/
def rlitCI (s : List Char) : RE :=
  rcat (s.map (fun c => RE.cls (fun x => lowerChar x = lowerChar c)))

/-! ## The source regexes

The source file is stored with an encoding corruption (mojibake): where the
author intended the en dash U+2013, the em dash U+2014 and the minus sign
U+2212, the file actually contains the three-character sequences
U+201A U+00C4 U+00EC, U+201A U+00C4 U+00EE and U+201A U+00E0 U+00ED
(and similarly for the accented letters in the transfer-detail class).
The embedding reproduces the file as it is: those are the characters the
Python `re` module and `str.replace` actually see. -/

/-- Python `\d` (ASCII range; the statement inputs are ASCII digits). -/
def isDig (c : Char) : Bool := c.isDigit

/-- The class `[-‚Äì‚Äî‚àí]` of the Santander money regexes: a hyphen plus
the six distinct characters of the three mojibake dash sequences. -/
def stdrDash (c : Char) : Bool :=
  c = '-' ∨ [0x201A, 0xC4, 0xEC, 0xEE, 0xE0, 0xED].contains c.toNat

/-- Python `.` (anything but newline). -/
def notNl (c : Char) : Bool := c ≠ '\n'

/-- Santander money token: `[-‚Äì‚Äî‚àí]?\s*\$\s*[\d\.\,]+`. -/
def money_arg_re : RE :=
  rcat [.opt (.cls stdrDash), .star (.cls isPyWs), .cls (fun c => c = '$'),
        .star (.cls isPyWs), rplus (.cls (fun c => isDig c ∨ c = '.' ∨ c = ','))]

/-- `saldo_inicial_stdr_re`: `Saldo\s+Inicial\s+(MONEY)`, used with `search`. -/
def saldo_inicial_stdr_re : RE :=
  rcat [rlit "Saldo".data, rplus (.cls isPyWs), rlit "Inicial".data,
        rplus (.cls isPyWs), .grp 1 money_arg_re]

/-- `\d{2}/\d{2}/\d{2}` (the `fecha` group body). -/
def fecha_stdr_re : RE :=
  rcat [.cls isDig, .cls isDig, .cls (fun c => c = '/'),
        .cls isDig, .cls isDig, .cls (fun c => c = '/'),
        .cls isDig, .cls isDig]

/-- `linea_movimiento_stdr` (re.VERBOSE): optional date, optional voucher
number, lazy free-text reference, then debit+balance or credit+balance,
anchored at end of line.  Groups numbered in source order: 1 fecha,
2 movimiento, 3 debito, 4 saldo, 5 credito, 6 saldo2. -/
def linea_movimiento_stdr : RE :=
  rcat [.opt (.grp 1 fecha_stdr_re),
        .star (.cls isPyWs),
        .opt (rcat [rplus (.cls isDig), rplus (.cls isPyWs)]),
        .grp 2 (.starL (.cls notNl)),
        rplus (.cls isPyWs),
        .alt (rcat [.grp 3 money_arg_re, rplus (.cls isPyWs), .grp 4 money_arg_re])
             (rcat [.grp 5 money_arg_re, rplus (.cls isPyWs), .grp 6 money_arg_re]),
        .eos]

/-- The letter class of `linea_transferencia_stdr`: ASCII letters, the
mojibake characters standing where accented letters were intended (with
their simple case partners, as `re.IGNORECASE` adds them), whitespace,
comma and dot. -/
def transLetter (c : Char) : Bool :=
  ('A' ≤ c ∧ c ≤ 'Z') ∨ ('a' ≤ c ∧ c ≤ 'z') ∨
  [0x221A, 0xC5, 0xE5, 0xE2, 0xC2, 0xE7, 0xC7, 0xEC, 0xCC, 0xF6, 0xD6,
   0xEB, 0xCB, 0xB0, 0xA9, 0x2260, 0x2265, 0x222B, 0xB1].contains c.toNat ∨
  isPyWs c ∨ c = ',' ∨ c = '.'

/-- `linea_transferencia_stdr` (re.IGNORECASE):
`^(?:De|A)(?:\s+[letters]+)?\s*/\s*.*?\s*-\s*.*?\s*/.*$`. -/
def linea_transferencia_stdr : RE :=
  rcat [.alt (rlitCI "De".data) (rlitCI "A".data),
        .opt (rcat [rplus (.cls isPyWs), rplus (.cls transLetter)]),
        .star (.cls isPyWs), .cls (fun c => c = '/'), .star (.cls isPyWs),
        .starL (.cls notNl), .star (.cls isPyWs), .cls (fun c => c = '-'),
        .star (.cls isPyWs), .starL (.cls notNl), .star (.cls isPyWs),
        .cls (fun c => c = '/'), .star (.cls notNl), .eos]

/-- `\d{1,3}` (greedy: three digits preferred, then two, then one). -/
def d13_re : RE :=
  rcat [.cls isDig, .opt (rcat [.cls isDig, .opt (.cls isDig)])]

/-- `(?:\d{1,3}(?:,\d{3})*|\d*)`: US-style integer part. -/
def money_us_core : RE :=
  .alt (rcat [d13_re,
              .star (rcat [.cls (fun c => c = ','), .cls isDig, .cls isDig, .cls isDig])])
       (.star (.cls isDig))

/-- HSBC money token: `(?:\d{1,3}(?:,\d{3})*|\d*)?\.\d{2}`. -/
def money_us_re : RE :=
  rcat [.opt money_us_core, .cls (fun c => c = '.'), .cls isDig, .cls isDig]

/-- `saldo_anterior_hsbc_re` (re.IGNORECASE, used with `search`):
`SALDO\s+ANTERIOR.*?((?:\d{1,3}(?:,\d{3})*|\d*)\.\d{2})$`. -/
def saldo_anterior_hsbc_re : RE :=
  rcat [rlitCI "SALDO".data, rplus (.cls isPyWs), rlitCI "ANTERIOR".data,
        .starL (.cls notNl),
        .grp 1 (rcat [money_us_core, .cls (fun c => c = '.'), .cls isDig, .cls isDig]),
        .eos]

/-- `[A-Z]` (no IGNORECASE on the HSBC movement regexes). -/
def isUpperAZ (c : Char) : Bool := 'A' ≤ c ∧ c ≤ 'Z'

/-- `linea_con_fecha_hsbc` (re.VERBOSE): date `\d{2}-[A-Z]{3}`, ` - `,
lazy reference, 5-digit voucher, optional debit, optional credit, balance.
Groups: 1 fecha, 2 referencia, 3 debito, 4 credito, 5 saldo.  No `$`
anchor: trailing text is allowed, as with Python `match`. -/
def linea_con_fecha_hsbc : RE :=
  rcat [.grp 1 (rcat [.cls isDig, .cls isDig, .cls (fun c => c = '-'),
                      .cls isUpperAZ, .cls isUpperAZ, .cls isUpperAZ]),
        rplus (.cls isPyWs), .cls (fun c => c = '-'), rplus (.cls isPyWs),
        .grp 2 (rplusL (.cls notNl)),
        rplus (.cls isPyWs),
        .cls isDig, .cls isDig, .cls isDig, .cls isDig, .cls isDig,
        rplus (.cls isPyWs),
        .opt (.grp 3 money_us_re), .star (.cls isPyWs),
        .opt (.grp 4 money_us_re), rplus (.cls isPyWs),
        .grp 5 money_us_re]

/-- `linea_sin_fecha_hsbc` (re.VERBOSE): like `linea_con_fecha_hsbc` but
starting `^\s*-\s+` with no date.  Groups: 1 referencia, 2 debito,
3 credito, 4 saldo. -/
def linea_sin_fecha_hsbc : RE :=
  rcat [.star (.cls isPyWs), .cls (fun c => c = '-'), rplus (.cls isPyWs),
        .grp 1 (rplusL (.cls notNl)),
        rplus (.cls isPyWs),
        .cls isDig, .cls isDig, .cls isDig, .cls isDig, .cls isDig,
        rplus (.cls isPyWs),
        .opt (.grp 2 money_us_re), .star (.cls isPyWs),
        .opt (.grp 3 money_us_re), rplus (.cls isPyWs),
        .grp 4 money_us_re]

/-! ## Money normalizers -/

/-- First replaced "dash": the file's literal is U+201A U+00C4 U+00EC,
the mojibake of the intended en dash U+2013. -/
def dashPat1 : List Char := [Char.ofNat 0x201A, Char.ofNat 0xC4, Char.ofNat 0xEC]

/-- Second replaced "dash": mojibake of the intended em dash U+2014. -/
def dashPat2 : List Char := [Char.ofNat 0x201A, Char.ofNat 0xC4, Char.ofNat 0xEE]

/-- Third replaced "dash": mojibake of the intended minus sign U+2212. -/
def dashPat3 : List Char := [Char.ofNat 0x201A, Char.ofNat 0xE0, Char.ofNat 0xED]

/-- The shared dash-"normalization" prelude of both normalizers: replaces
the three mojibake sequences (not actual Unicode dashes) by a hyphen. -/
def normalizeDashes (raw : List Char) : List Char :=
  pyReplace (pyReplace (pyReplace raw dashPat1 ['-']) dashPat2 ['-']) dashPat3 ['-']

/-- `_to_float_money_arg`: `$`-prefixed Argentine format (thousands `.`,
decimal `,`); removes `$`, `.` and spaces, turns `,` into `.`, strips, and
parses as `float` (`none` where Python raises). -/
def _to_float_money_arg (raw : List Char) : Option ℚ :=
  let normalized := normalizeDashes raw
  parsePyFloat (pyStrip
    (pyReplace (pyReplace (pyReplace (pyReplace normalized ['$'] []) ['.'] [])
      [','] ['.']) [' '] []))

/-- `_to_float_money_us`: US format (thousands `,`, decimal `.`). -/
def _to_float_money_us (raw : List Char) : Option ℚ :=
  let normalized := normalizeDashes raw
  parsePyFloat (pyStrip (pyReplace normalized [','] []))

/-! ## Data model and the two reconciliation state machines -/

/-- One output row (`Fecha`, `Referencia`, `Importe`, `Saldo`).  `fecha`
is `none` where Python stores `None` (undated line with no inherited
date) and `some []` for the sentinel's explicit `""`; `importe` is `none`
for the sentinel's explicit `""`. -/
structure Movement where
  fecha : Option (List Char)
  referencia : List Char
  importe : Option ℚ
  saldo : ℚ
  deriving DecidableEq, Repr

/-- Python truthiness of an optional string (`None` and `""` are falsy). -/
def pyTruthy (o : Option (List Char)) : Bool :=
  match o with
  | some s => s ≠ []
  | none => false

/-- Python `a or b` on two optional strings. -/
def pyOrStr (a b : Option (List Char)) : Option (List Char) :=
  if pyTruthy a then a else b

/-- Python `(a or "")` on an optional string. -/
def pyOrEmpty (o : Option (List Char)) : List Char := o.getD []

/-- The mutable locals of `parse_santander_pdf`. -/
structure StdrState where
  fecha_actual : Option (List Char)
  fecha_anterior : Option (List Char)
  previous_saldo : Option ℚ
  saldo_anterior_registrado : Bool
  row_transferencia : Bool
  current_row : Option Movement
  deriving DecidableEq, Repr

/-- Steps 2 and 3 of the Santander loop body: movement line, else
transfer-detail line, else drop.  Returns the successor state and the
movements appended by this line; `none` embeds an uncaught Python
exception (unparsable numeric token, or both money groups absent). -/
def stdrStepMov (st : StdrState) (line : List Char) : Option (StdrState × List Movement) :=
  match reMatch linea_movimiento_stdr line with
  | some m =>
      let fa : Option (List Char) :=
        match getCap 1 m with
        | some f => some f
        | none => st.fecha_anterior
      let fant : Option (List Char) :=
        match getCap 1 m with
        | some f => some f
        | none => st.fecha_anterior
      let referencia := pyStrip (pyOrEmpty (getCap 2 m))
      match pyOrStr (getCap 3 m) (getCap 5 m) with
      | none => none
      | some raw_imp =>
        match _to_float_money_arg raw_imp with
        | none => none
        | some imp0 =>
          let importe1 := if pyTruthy (getCap 3 m) then -imp0 else imp0
          match pyOrStr (getCap 4 m) (getCap 6 m) with
          | none => none
          | some raw_saldo =>
            match _to_float_money_arg raw_saldo with
            | none => none
            | some saldo =>
              let importe :=
                match st.previous_saldo with
                | some p => if saldo - p > 0 then -importe1 else importe1
                | none => importe1
              let mov : Movement := ⟨fa, referencia, some importe, saldo⟩
              if pyLower referencia = "transferencia recibida".data ∨
                  pyLower referencia = "transferencia realizada".data then
                some ({ st with fecha_actual := fa, fecha_anterior := fant,
                                previous_saldo := some saldo,
                                row_transferencia := true, current_row := some mov }, [])
              else
                some ({ st with fecha_actual := fa, fecha_anterior := fant,
                                previous_saldo := some saldo,
                                row_transferencia := false, current_row := none }, [mov])
  | none =>
      match reMatch linea_transferencia_stdr line with
      | some _ =>
          if st.row_transferencia then
            match st.current_row with
            | some r =>
                some ({ st with row_transferencia := false, current_row := none },
                      [⟨r.fecha, r.referencia ++ " - ".data ++ line, r.importe, r.saldo⟩])
            | none => some (st, [])
          else some (st, [])
      | none => some (st, [])

/-- The whole Santander loop body for one (already stripped) line:
step 1 (initial balance, only while unseen), then `stdrStepMov`. -/
def stdrStep (st : StdrState) (line : List Char) : Option (StdrState × List Movement) :=
  if st.saldo_anterior_registrado = false then
    match reSearch saldo_inicial_stdr_re line with
    | some m =>
        match getCap 1 m with
        | none => none
        | some raw =>
          match _to_float_money_arg raw with
          | none => none
          | some saldo_inicial =>
            some ({ st with previous_saldo := some saldo_inicial,
                            saldo_anterior_registrado := true },
                  [⟨some [], "Saldo Inicial".data, none, saldo_inicial⟩])
    | none => stdrStepMov st line
  else stdrStepMov st line

/-- Fold of `stdrStep` over the line stream (each line stripped first, as
in the source's generator), accumulating emitted movements in order. -/
def stdrRun : StdrState → List (List Char) → Option (StdrState × List Movement)
  | st, [] => some (st, [])
  | st, l :: ls =>
      match stdrStep st (pyStrip l) with
      | none => none
      | some (st1, out1) =>
          match stdrRun st1 ls with
          | none => none
          | some (st2, out2) => some (st2, out1 ++ out2)

/-- The fresh per-call state of `parse_santander_pdf`. -/
def stdrInit : StdrState := ⟨none, none, none, false, false, none⟩

/-- `parse_santander_pdf` on the extracted line stream (page extraction is
external): the emitted movement sequence, `none` on an uncaught
exception.  The held-back `current_row` of the final state is discarded,
as in the source. -/
def parse_santander_pdf (lines : List (List Char)) : Option (List Movement) :=
  (stdrRun stdrInit lines).map (fun r => r.2)

/-- The mutable locals of `parse_hsbc_pdf`. -/
structure HsbcState where
  fecha_actual : Option (List Char)
  previous_saldo : Option ℚ
  saldo_anterior_registrado : Bool
  deriving DecidableEq, Repr

/-- The HSBC loop body for one (already stripped) line: SALDO ANTERIOR
(only while unseen), then dated movement, then undated movement
(inheriting the current date), else drop.  The amount is always the
rounded balance delta (or `0.0` with no previous balance); the debit and
credit capture groups are never read. -/
def hsbcStep (st : HsbcState) (line : List Char) : Option (HsbcState × List Movement) :=
  match (if st.saldo_anterior_registrado = false then
           reSearch saldo_anterior_hsbc_re line
         else none) with
  | some m =>
      match getCap 1 m with
      | none => none
      | some raw =>
        match _to_float_money_us raw with
        | none => none
        | some saldo_inicial =>
          some ({ st with previous_saldo := some saldo_inicial,
                          saldo_anterior_registrado := true },
                [⟨some [], "SALDO ANTERIOR".data, none, saldo_inicial⟩])
  | none =>
      match reMatch linea_con_fecha_hsbc line with
      | some m =>
          let referencia := pyStrip (pyOrEmpty (getCap 2 m))
          match getCap 5 m with
          | none => none
          | some raw_saldo =>
            match _to_float_money_us raw_saldo with
            | none => none
            | some saldo =>
              let importe : ℚ :=
                match st.previous_saldo with
                | some p => pyRoundAt 2 (saldo - p)
                | none => 0
              some ({ st with fecha_actual := getCap 1 m, previous_saldo := some saldo },
                    [⟨getCap 1 m, referencia, some importe, saldo⟩])
      | none =>
          match reMatch linea_sin_fecha_hsbc line with
          | some m =>
              if pyTruthy st.fecha_actual then
                let referencia := pyStrip (pyOrEmpty (getCap 1 m))
                match getCap 4 m with
                | none => none
                | some raw_saldo =>
                  match _to_float_money_us raw_saldo with
                  | none => none
                  | some saldo =>
                    let importe : ℚ :=
                      match st.previous_saldo with
                      | some p => pyRoundAt 2 (saldo - p)
                      | none => 0
                    some ({ st with previous_saldo := some saldo },
                          [⟨st.fecha_actual, referencia, some importe, saldo⟩])
              else some (st, [])
          | none => some (st, [])

/-- Fold of `hsbcStep` over the line stream. -/
def hsbcRun : HsbcState → List (List Char) → Option (HsbcState × List Movement)
  | st, [] => some (st, [])
  | st, l :: ls =>
      match hsbcStep st (pyStrip l) with
      | none => none
      | some (st1, out1) =>
          match hsbcRun st1 ls with
          | none => none
          | some (st2, out2) => some (st2, out1 ++ out2)

/-- The fresh per-call state of `parse_hsbc_pdf`. -/
def hsbcInit : HsbcState := ⟨none, none, false⟩

/-- `parse_hsbc_pdf` on the extracted line stream. -/
def parse_hsbc_pdf (lines : List (List Char)) : Option (List Movement) :=
  (hsbcRun hsbcInit lines).map (fun r => r.2)

/-! ## `build_summary` -/

/-- Lexicographic comparison of strings by code point (the order pandas
sorts group keys in). -/
def charListLt : List Char → List Char → Bool
  | [], [] => false
  | [], _ :: _ => true
  | _ :: _, [] => false
  | a :: as, b :: bs => if a < b then true else if b < a then false else charListLt as bs

/-- Insertion step of the key sort. -/
def insertKey (k : List Char) : List (List Char) → List (List Char)
  | [] => [k]
  | x :: xs => if charListLt k x then k :: x :: xs else x :: insertKey k xs

/-- Sort group keys ascending (pandas `groupby` default). -/
def sortKeys (l : List (List Char)) : List (List Char) := l.foldr insertKey []

/-- One row of the summary frame
(`Referencia, Sum_Importe, Cantidad, Pct_Importe, Pct_Cantidad`). -/
structure SummaryRow where
  referencia : List Char
  sum_importe : ℚ
  cantidad : ℕ
  pct_importe : ℚ
  pct_cantidad : ℚ
  deriving DecidableEq, Repr

/-- The working frame of `build_summary`: rows whose `Referencia` is the
exact string `"Saldo Inicial"` are dropped — only that string, nothing
else. -/
def summaryWork (movs : List Movement) : List Movement :=
  movs.filter (fun m => m.referencia ≠ "Saldo Inicial".data)

/-- One `groupby("Referencia")` group of the working frame. -/
def summaryGroup (work : List Movement) (k : List Char) : List Movement :=
  work.filter (fun m => m.referencia = k)

/-- The group keys, sorted ascending (pandas `groupby` default). -/
def summaryKeys (work : List Movement) : List (List Char) :=
  sortKeys (work.map (fun m => m.referencia)).dedup

/-- `Sum_Importe` of a group: `pd.to_numeric(..., errors="coerce")` turns
the sentinel's `""` into NaN, which the pandas sum skips. -/
def sumImporte (grp : List Movement) : ℚ :=
  (grp.filterMap (fun m => m.importe)).sum

/-- `build_summary`: on a non-empty frame, drop rows whose `Referencia`
equals `"Saldo Inicial"` (only that exact string), group the rest by
`Referencia` (keys sorted ascending), sum `Importe` and count rows per
group, derive the two percentage columns (the share column is the scalar
`0.0` when the absolute total is falsy), and append a `TOTAL` row of
column sums. -/
def build_summary (movs : List Movement) : List SummaryRow :=
  if movs = [] then []
  else
    let work := summaryWork movs
    let keys := summaryKeys work
    let totalAbs : ℚ := (keys.map (fun k => |sumImporte (summaryGroup work k)|)).sum
    let totalCnt : ℕ := (keys.map (fun k => (summaryGroup work k).length)).sum
    let rows := keys.map (fun k =>
      SummaryRow.mk k (sumImporte (summaryGroup work k)) (summaryGroup work k).length
        (if totalAbs = 0 then 0
         else pyRoundAt 4 (|sumImporte (summaryGroup work k)| / totalAbs * 100))
        (pyRoundAt 4 (((summaryGroup work k).length : ℚ) / (totalCnt : ℚ) * 100)))
    rows ++ [SummaryRow.mk "TOTAL".data
      ((rows.map (fun r => r.sum_importe)).sum)
      ((rows.map (fun r => r.cantidad)).sum)
      ((rows.map (fun r => r.pct_importe)).sum)
      ((rows.map (fun r => r.pct_cantidad)).sum)]

/-- C2 (counterexample).  On the spec's own input — debit token
`"-$ 70.833,71"`, balance token `"-$ 1.234,00"`, `previousBalance =
-1000.00` — the parser emits `amount = +70833.71`, not `-70833.71`: the
captured debit token already carries its minus sign, so the debit-field
negation `importe = -importe` flips the normalized `-70833.71` to
`+70833.71` (and the inversion correction indeed does not fire, since the
balance decreased).  The claimed amount `-70833.71` is therefore wrong. -/
theorem stdr_signed_debit_cex :
    stdrStep ⟨none, none, some (-1000), true, false, none⟩
        ("01/01/24 PAGO -$ 70.833,71 -$ 1.234,00".data) =
      some (⟨some "01/01/24".data, some "01/01/24".data, some (-1234), true, false, none⟩,
        [⟨some "01/01/24".data, "PAGO".data, some (70833.71 : ℚ), -1234⟩]) ∧
    (70833.71 : ℚ) ≠ (-70833.71 : ℚ) := by
  constructor
  · with_unfolding_all rfl
  · with_unfolding_all decide

/-- C2 (amended).  For the line with debit token `"-$ 70.833,71"` and
balance token `"-$ 1.234,00"` with `previousBalance = -1000.00`: the
normalizer yields `-70833.71`, the debit-field negation makes the naive
amount `+70833.71`, the balance-inversion correction does not fire
(`-1234.00 - (-1000.00) = -234.00` is not `> 0`), and the emitted
Movement has `amount = 70833.71` and `balance = -1234.00`. -/
theorem stdr_signed_debit_line_eval :
    _to_float_money_arg ("-$ 70.833,71".data) = some (-70833.71 : ℚ) ∧
    ¬((-1234 : ℚ) - (-1000 : ℚ) > 0) ∧
    stdrStep ⟨none, none, some (-1000), true, false, none⟩
        ("01/01/24 PAGO -$ 70.833,71 -$ 1.234,00".data) =
      some (⟨some "01/01/24".data, some "01/01/24".data, some (-1234), true, false, none⟩,
        [⟨some "01/01/24".data, "PAGO".data, some (70833.71 : ℚ), -1234⟩]) := by
  refine ⟨?_, ?_, ?_⟩
  · with_unfolding_all rfl
  · with_unfolding_all decide
  · with_unfolding_all rfl

/-- C5.  A movement line whose reference is the transfer-header marker
`"Transferencia Recibida"`, immediately followed by the detail line
`"De Juan Perez / transf - var /123"`, yields exactly one Movement whose
reference is the header reference joined to the whole detail line with
`" - "`. -/
theorem stdr_transfer_merge :
    parse_santander_pdf
        ["01/01/24 Transferencia Recibida $ 1,00 $ 2,00".data,
         "De Juan Perez / transf - var /123".data] =
      some [⟨some "01/01/24".data,
        "Transferencia Recibida - De Juan Perez / transf - var /123".data,
        some (-1 : ℚ), 2⟩] := by
  with_unfolding_all rfl

/-- C10.  Two consecutive transfer-header movement lines followed by one
matching detail line: the first header's withheld Movement is overwritten
and never emitted; exactly one transfer Movement is output, built from
the second header. -/
theorem stdr_double_header_overwrite :
    parse_santander_pdf
        ["01/01/24 Transferencia Recibida $ 1,00 $ 2,00".data,
         "02/01/24 Transferencia Realizada $ 3,00 $ 4,00".data,
         "De Juan Perez / transf - var /123".data] =
      some [⟨some "02/01/24".data,
        "Transferencia Realizada - De Juan Perez / transf - var /123".data,
        some (3 : ℚ), 4⟩] := by
  with_unfolding_all rfl

/-- C8.  The two claimed round trips hold: `"$ 1.234,56"` (ARG) and
`"1,234.56"` (US) both normalize to `1234.56`.  But the claimed dash
normalization does not: on a token carrying a real en dash (U+2013) the
ARG normalizer fails (Python `ValueError`, embedded as `none`) instead of
producing `-5.00`, because the `replace` literals in the source are the
mojibake sequences `U+201A U+00C4 U+00EC` (etc.), not Unicode dashes —
the code contradicts its own comment "Normalize unicode dashes to
hyphen". -/
theorem money_normalizer_eval :
    _to_float_money_arg ("$ 1.234,56".data) = some (1234.56 : ℚ) ∧
    _to_float_money_us ("1,234.56".data) = some (1234.56 : ℚ) ∧
    _to_float_money_arg (Char.ofNat 0x2013 :: "$ 5,00".data) = none := by
  refine ⟨?_, ?_, ?_⟩
  · with_unfolding_all rfl
  · with_unfolding_all rfl
  · with_unfolding_all rfl

/-! ### Shared helper lemmas for the Santander state machine -/

/-- Step 1 of the Santander loop is a no-op when the sentinel was already
recorded or the line does not contain an initial-balance marker. -/
theorem stdrStep_eq_stepMov (st : StdrState) (line : List Char)
    (h : st.saldo_anterior_registrado = true ∨
         reSearch saldo_inicial_stdr_re line = none) :
    stdrStep st line = stdrStepMov st line := by
  unfold stdrStep
  cases hb : st.saldo_anterior_registrado with
  | false =>
      rcases h with hg | hsg
      · rw [hb] at hg; cases hg
      · rw [hsg]; rfl
  | true => rfl

/-- A movement line whose (lowered) reference is one of the two
transfer-marker phrases emits nothing: the Movement is withheld in
`current_row` and `previous_saldo` is still updated to its balance. -/
theorem stdrStepMov_header (st : StdrState) (line : List Char) (m : Caps)
    (raw_imp raw_saldo : List Char) (imp0 saldo : ℚ)
    (hm : reMatch linea_movimiento_stdr line = some m)
    (hImp : pyOrStr (getCap 3 m) (getCap 5 m) = some raw_imp)
    (hI : _to_float_money_arg raw_imp = some imp0)
    (hSal : pyOrStr (getCap 4 m) (getCap 6 m) = some raw_saldo)
    (hS : _to_float_money_arg raw_saldo = some saldo)
    (href : pyLower (pyStrip (pyOrEmpty (getCap 2 m))) = "transferencia recibida".data ∨
            pyLower (pyStrip (pyOrEmpty (getCap 2 m))) = "transferencia realizada".data) :
    ∃ st' mov, stdrStepMov st line = some (st', []) ∧ st'.current_row = some mov ∧
      st'.previous_saldo = some saldo ∧ mov.saldo = saldo ∧
      st'.saldo_anterior_registrado = st.saldo_anterior_registrado := by
  simp only [stdrStepMov, hm, hImp, hI, hSal, hS]
  rw [if_pos href]
  exact ⟨_, _, rfl, rfl, rfl, rfl, rfl⟩

/-- `stdrRun` distributes over list append. -/
theorem stdrRun_append (st : StdrState) (A B : List (List Char)) :
    stdrRun st (A ++ B) =
      match stdrRun st A with
      | none => none
      | some (st1, o1) =>
          match stdrRun st1 B with
          | none => none
          | some (st2, o2) => some (st2, o1 ++ o2) := by
  induction A generalizing st with
  | nil =>
      simp only [List.nil_append, stdrRun]
      cases h : stdrRun st B with
      | none => rfl
      | some p => cases p with | mk a b => simp
  | cons l ls ih =>
      simp only [List.cons_append, stdrRun]
      cases stdrStep st (pyStrip l) with
      | none => rfl
      | some p =>
          cases p with
          | mk st1 o1 =>
              dsimp only [List.append_eq]
              rw [ih st1]
              cases stdrRun st1 ls with
              | none => rfl
              | some q =>
                  cases q with
                  | mk st2 o2 =>
                      dsimp only
                      cases stdrRun st2 B with
                      | none => rfl
                      | some r =>
                          cases r with
                          | mk a b => dsimp only; rw [List.append_assoc]

/-- Membership through `insertKey`. -/
theorem mem_insertKey (k x : List Char) (l : List (List Char)) :
    x ∈ insertKey k l ↔ x = k ∨ x ∈ l := by
  induction l with
  | nil => simp [insertKey]
  | cons a as ih =>
      rw [insertKey]
      split
      · simp [List.mem_cons]
      · simp only [List.mem_cons, ih]
        tauto

/-- `insertKey` keeps a duplicate-free list duplicate-free. -/
theorem nodup_insertKey (k : List Char) (l : List (List Char))
    (hk : k ∉ l) (hl : l.Nodup) : (insertKey k l).Nodup := by
  induction l with
  | nil => simp [insertKey]
  | cons a as ih =>
      rw [insertKey]
      split
      · exact List.nodup_cons.mpr ⟨hk, hl⟩
      · have hk' : k ∉ as := fun h => hk (List.mem_cons_of_mem a h)
        have hka : k ≠ a := fun h => hk (h ▸ List.mem_cons_self a as)
        obtain ⟨ha, has⟩ := List.nodup_cons.mp hl
        refine List.nodup_cons.mpr ⟨?_, ih hk' has⟩
        intro hmem
        rcases (mem_insertKey k a as).mp hmem with h | h
        · exact hka h.symm
        · exact ha h

/-- Sorting the keys changes no memberships. -/
theorem mem_sortKeys (x : List Char) (l : List (List Char)) :
    x ∈ sortKeys l ↔ x ∈ l := by
  induction l with
  | nil => simp [sortKeys]
  | cons a as ih =>
      show x ∈ insertKey a (sortKeys as) ↔ _
      rw [mem_insertKey, ih, List.mem_cons]

/-- Sorting a duplicate-free key list keeps it duplicate-free. -/
theorem nodup_sortKeys (l : List (List Char)) (hl : l.Nodup) :
    (sortKeys l).Nodup := by
  induction l with
  | nil => simp [sortKeys]
  | cons a as ih =>
      obtain ⟨ha, has⟩ := List.nodup_cons.mp hl
      show (insertKey a (sortKeys as)).Nodup
      exact nodup_insertKey a _ (fun h => ha ((mem_sortKeys a as).mp h)) (ih has)

/-! ### Remaining claim theorems -/

/-- C9 (counterexample).  A movement sequence produced by the HSBC parser
begins with the sentinel row `SALDO ANTERIOR`; `build_summary` only
excludes rows whose reference is the exact string `"Saldo Inicial"`, so
the HSBC sentinel is *not* excluded: it survives as its own group row
(amount sum 0, count 1) in the summary. -/
theorem build_summary_sentinel_cex :
    parse_hsbc_pdf ["SALDO ANTERIOR 1,000.00".data,
        "01-JAN - PAGO 12345 100.00 1,234.56".data] =
      some [⟨some [], "SALDO ANTERIOR".data, none, 1000⟩,
            ⟨some "01-JAN".data, "PAGO".data, some (234.56 : ℚ), 1234.56⟩] ∧
    (build_summary [⟨some [], "SALDO ANTERIOR".data, none, 1000⟩,
        ⟨some "01-JAN".data, "PAGO".data, some (234.56 : ℚ), 1234.56⟩]).map
        (fun r => r.referencia) =
      ["PAGO".data, "SALDO ANTERIOR".data, "TOTAL".data] := by
  constructor
  · with_unfolding_all rfl
  · with_unfolding_all rfl

/-- C3.  Explicit-field strategy: whenever the previous balance is known
and the new balance exceeds it, the Movement the line produces (emitted,
or withheld as a pending transfer) carries the flip of the naive
debit/credit-derived amount — naive being the normalized token negated
exactly when it came from the debit group. -/
theorem stdr_inversion_flips_naive_sign (st : StdrState) (line : List Char) (m : Caps)
    (raw_imp raw_saldo : List Char) (imp0 saldo p : ℚ) (dbt : Bool)
    (hg : st.saldo_anterior_registrado = true)
    (hm : reMatch linea_movimiento_stdr line = some m)
    (hImp : pyOrStr (getCap 3 m) (getCap 5 m) = some raw_imp)
    (hd : pyTruthy (getCap 3 m) = dbt)
    (hI : _to_float_money_arg raw_imp = some imp0)
    (hSal : pyOrStr (getCap 4 m) (getCap 6 m) = some raw_saldo)
    (hS : _to_float_money_arg raw_saldo = some saldo)
    (hp : st.previous_saldo = some p)
    (hgt : saldo - p > 0) :
    ∃ st' out mov, stdrStep st line = some (st', out) ∧
      (out = [mov] ∨ (out = [] ∧ st'.current_row = some mov)) ∧
      mov.importe = some (-(if dbt then -imp0 else imp0)) ∧
      mov.saldo = saldo := by
  rw [stdrStep_eq_stepMov st line (Or.inl hg)]
  simp only [stdrStepMov, hm, hImp, hI, hSal, hS, hd, hp]
  rw [if_pos hgt]
  split
  · exact ⟨_, [], _, rfl, Or.inr ⟨rfl, rfl⟩, rfl, rfl⟩
  · exact ⟨_, _, _, rfl, Or.inl rfl, rfl, rfl⟩

/-- C3 (witness).  Credit-free line `"01/01/24 PAGO $ 1,00 $ 2,00"` with
previous balance 0: the debit-derived naive amount is `-1.00`, the
balance rose, and the emitted amount is `+1.00`, the flip. -/
theorem stdr_inversion_witness :
    ((2 : ℚ) - 0 > 0) ∧
    ∃ st' out mov,
      stdrStep ⟨none, none, some 0, true, false, none⟩
          ("01/01/24 PAGO $ 1,00 $ 2,00".data) = some (st', out) ∧
      (out = [mov] ∨ (out = [] ∧ st'.current_row = some mov)) ∧
      mov.importe = some (-(if true then -(1 : ℚ) else (1 : ℚ))) ∧
      mov.saldo = (2 : ℚ) := by
  constructor
  · with_unfolding_all decide
  · exact stdr_inversion_flips_naive_sign ⟨none, none, some 0, true, false, none⟩
      ("01/01/24 PAGO $ 1,00 $ 2,00".data)
      ((reMatch linea_movimiento_stdr ("01/01/24 PAGO $ 1,00 $ 2,00".data)).iget)
      ("$ 1,00".data) ("$ 2,00".data) 1 2 0 true rfl
      (by with_unfolding_all rfl) (by with_unfolding_all rfl)
      (by with_unfolding_all rfl) (by with_unfolding_all rfl)
      (by with_unfolding_all rfl) (by with_unfolding_all rfl)
      rfl (by with_unfolding_all decide)

/-- C4.  Delta strategy, both emitting movement branches.  A dated HSBC
movement line (first conjunct) and an undated one taken with an inherited
date (second conjunct) each emit exactly one Movement whose amount is
`round(balance - previousBalance, 2)` when the previous balance is known
and `0.0` otherwise, built from the balance capture alone — the
debit/credit captures (groups 3/4 of the dated regex, groups 2/3 of the
undated one) do not occur in the result. -/
theorem hsbc_delta_amount :
    (∀ (st : HsbcState) (line : List Char) (m : Caps) (raw_saldo : List Char) (saldo : ℚ),
      st.saldo_anterior_registrado = true →
      reMatch linea_con_fecha_hsbc line = some m →
      getCap 5 m = some raw_saldo →
      _to_float_money_us raw_saldo = some saldo →
      hsbcStep st line =
        some ({ st with fecha_actual := getCap 1 m, previous_saldo := some saldo },
          [⟨getCap 1 m, pyStrip (pyOrEmpty (getCap 2 m)),
            some (match st.previous_saldo with
                  | some p => pyRoundAt 2 (saldo - p)
                  | none => 0), saldo⟩])) ∧
    (∀ (st : HsbcState) (line : List Char) (m : Caps) (raw_saldo : List Char) (saldo : ℚ),
      st.saldo_anterior_registrado = true →
      reMatch linea_con_fecha_hsbc line = none →
      reMatch linea_sin_fecha_hsbc line = some m →
      pyTruthy st.fecha_actual = true →
      getCap 4 m = some raw_saldo →
      _to_float_money_us raw_saldo = some saldo →
      hsbcStep st line =
        some ({ st with previous_saldo := some saldo },
          [⟨st.fecha_actual, pyStrip (pyOrEmpty (getCap 1 m)),
            some (match st.previous_saldo with
                  | some p => pyRoundAt 2 (saldo - p)
                  | none => 0), saldo⟩])) := by
  constructor
  · intro st line m raw_saldo saldo hg hm h5 hf
    simp only [hsbcStep, hg, hm, h5, hf]
    rfl
  · intro st line m raw_saldo saldo hg hcf hm hfa h4 hf
    simp only [hsbcStep, hg, hcf, hm, hfa, h4, hf]
    rfl

/-- C4 (witness).  Dated branch: `"01-JAN - PAGO 12345 100.00 1,234.56"`
with previous balance 1000.00 gives amount exactly `234.56`.  Undated
branch: `"- PAGO 12345 100.00 1,334.56"` with inherited date `01-JAN` and
previous balance 1000.00 gives amount exactly `334.56`.  In both, the
debit capture `100.00` plays no role. -/
theorem hsbc_delta_amount_witness :
    (reMatch linea_con_fecha_hsbc ("01-JAN - PAGO 12345 100.00 1,234.56".data) ≠ none ∧
     hsbcStep ⟨none, some 1000, true⟩ ("01-JAN - PAGO 12345 100.00 1,234.56".data) =
       some (⟨some "01-JAN".data, some (1234.56 : ℚ), true⟩,
         [⟨some "01-JAN".data, "PAGO".data, some (234.56 : ℚ), (1234.56 : ℚ)⟩])) ∧
    (reMatch linea_con_fecha_hsbc ("- PAGO 12345 100.00 1,334.56".data) = none ∧
     reMatch linea_sin_fecha_hsbc ("- PAGO 12345 100.00 1,334.56".data) ≠ none ∧
     hsbcStep ⟨some "01-JAN".data, some 1000, true⟩
         ("- PAGO 12345 100.00 1,334.56".data) =
       some (⟨some "01-JAN".data, some (1334.56 : ℚ), true⟩,
         [⟨some "01-JAN".data, "PAGO".data, some (334.56 : ℚ), (1334.56 : ℚ)⟩])) := by
  refine ⟨⟨?_, ?_⟩, ?_, ?_, ?_⟩
  · with_unfolding_all decide
  · have h := hsbc_delta_amount.1 ⟨none, some 1000, true⟩
      ("01-JAN - PAGO 12345 100.00 1,234.56".data)
      ((reMatch linea_con_fecha_hsbc ("01-JAN - PAGO 12345 100.00 1,234.56".data)).iget)
      ("1,234.56".data) (1234.56 : ℚ) rfl (by with_unfolding_all rfl)
      (by with_unfolding_all rfl) (by with_unfolding_all rfl)
    rw [h]
    with_unfolding_all rfl
  · with_unfolding_all rfl
  · with_unfolding_all decide
  · have h := hsbc_delta_amount.2 ⟨some "01-JAN".data, some 1000, true⟩
      ("- PAGO 12345 100.00 1,334.56".data)
      ((reMatch linea_sin_fecha_hsbc ("- PAGO 12345 100.00 1,334.56".data)).iget)
      ("1,334.56".data) (1334.56 : ℚ) rfl (by with_unfolding_all rfl)
      (by with_unfolding_all rfl) rfl (by with_unfolding_all rfl)
      (by with_unfolding_all rfl)
    rw [h]
    with_unfolding_all rfl

/-- C6.  When the last input line is a transfer-header movement line (so
its Movement is withheld as `pendingTransfer` and no detail line ever
arrives), the parse still succeeds and its output equals the output of
the input without that line: the withheld Movement is never emitted and
its loss is indistinguishable from the transfer never occurring. -/
theorem stdr_pending_transfer_dropped (L : List (List Char)) (stf : StdrState)
    (out : List Movement) (h : List Char) (m : Caps)
    (raw_imp raw_saldo : List Char) (imp0 saldo : ℚ)
    (hrun : stdrRun stdrInit L = some (stf, out))
    (hsg : reSearch saldo_inicial_stdr_re (pyStrip h) = none)
    (hm : reMatch linea_movimiento_stdr (pyStrip h) = some m)
    (hImp : pyOrStr (getCap 3 m) (getCap 5 m) = some raw_imp)
    (hI : _to_float_money_arg raw_imp = some imp0)
    (hSal : pyOrStr (getCap 4 m) (getCap 6 m) = some raw_saldo)
    (hS : _to_float_money_arg raw_saldo = some saldo)
    (href : pyLower (pyStrip (pyOrEmpty (getCap 2 m))) = "transferencia recibida".data ∨
            pyLower (pyStrip (pyOrEmpty (getCap 2 m))) = "transferencia realizada".data) :
    parse_santander_pdf (L ++ [h]) = some out := by
  obtain ⟨st', mov, h1, _, _, _, _⟩ :=
    stdrStepMov_header stf (pyStrip h) m raw_imp raw_saldo imp0 saldo hm hImp hI hSal hS href
  have hstep : stdrStep stf (pyStrip h) = some (st', []) := by
    rw [stdrStep_eq_stepMov stf (pyStrip h) (Or.inr hsg)]; exact h1
  have hone : stdrRun stf [h] = some (st', []) := by
    simp only [stdrRun, hstep]
    rfl
  unfold parse_santander_pdf
  rw [stdrRun_append, hrun]
  dsimp only
  rw [hone]
  simp

/-- C6 (witness).  `["Saldo Inicial $ 5,00"]` followed by a final
transfer-header line: the output stays `[sentinel]`; the header's
transaction yields zero Movements and no error. -/
theorem stdr_pending_dropped_witness :
    stdrRun stdrInit ["Saldo Inicial $ 5,00".data] =
      some (⟨none, none, some 5, true, false, none⟩,
        [⟨some [], "Saldo Inicial".data, none, 5⟩]) ∧
    parse_santander_pdf
        ["Saldo Inicial $ 5,00".data,
         "01/01/24 Transferencia Recibida $ 1,00 $ 2,00".data] =
      some [⟨some [], "Saldo Inicial".data, none, 5⟩] := by
  constructor
  · with_unfolding_all rfl
  · exact stdr_pending_transfer_dropped ["Saldo Inicial $ 5,00".data]
      ⟨none, none, some 5, true, false, none⟩
      [⟨some [], "Saldo Inicial".data, none, 5⟩]
      ("01/01/24 Transferencia Recibida $ 1,00 $ 2,00".data)
      ((reMatch linea_movimiento_stdr
        ("01/01/24 Transferencia Recibida $ 1,00 $ 2,00".data)).iget)
      ("$ 1,00".data) ("$ 2,00".data) 1 2
      (by with_unfolding_all rfl) (by with_unfolding_all rfl)
      (by with_unfolding_all rfl) (by with_unfolding_all rfl)
      (by with_unfolding_all rfl) (by with_unfolding_all rfl)
      (by with_unfolding_all rfl)
      (Or.inl (by with_unfolding_all rfl))

/-- C7.  On a transfer-header movement line the Movement is withheld (the
step emits nothing and stores it in `current_row`), yet `previous_saldo`
is still updated to the withheld Movement's balance, exactly as after a
normal emission. -/
theorem stdr_pending_updates_previous_saldo (st : StdrState) (line : List Char)
    (m : Caps) (raw_imp raw_saldo : List Char) (imp0 saldo : ℚ)
    (hg : st.saldo_anterior_registrado = true)
    (hm : reMatch linea_movimiento_stdr line = some m)
    (hImp : pyOrStr (getCap 3 m) (getCap 5 m) = some raw_imp)
    (hI : _to_float_money_arg raw_imp = some imp0)
    (hSal : pyOrStr (getCap 4 m) (getCap 6 m) = some raw_saldo)
    (hS : _to_float_money_arg raw_saldo = some saldo)
    (href : pyLower (pyStrip (pyOrEmpty (getCap 2 m))) = "transferencia recibida".data ∨
            pyLower (pyStrip (pyOrEmpty (getCap 2 m))) = "transferencia realizada".data) :
    ∃ st' mov, stdrStep st line = some (st', []) ∧ st'.current_row = some mov ∧
      st'.previous_saldo = some saldo ∧ mov.saldo = saldo := by
  obtain ⟨st', mov, h1, h2, h3, h4, _⟩ :=
    stdrStepMov_header st line m raw_imp raw_saldo imp0 saldo hm hImp hI hSal hS href
  exact ⟨st', mov, by rw [stdrStep_eq_stepMov st line (Or.inl hg)]; exact h1, h2, h3, h4⟩

/-- C7 (witness).  The header line `"01/01/24 Transferencia Recibida
$ 1,00 $ 2,00"`: nothing is emitted, yet `previous_saldo` becomes 2.00,
the withheld Movement's balance. -/
theorem stdr_pending_updates_witness :
    (reMatch linea_movimiento_stdr
        ("01/01/24 Transferencia Recibida $ 1,00 $ 2,00".data)).isSome = true ∧
    ∃ st' mov,
      stdrStep ⟨none, none, some 0, true, false, none⟩
          ("01/01/24 Transferencia Recibida $ 1,00 $ 2,00".data) = some (st', []) ∧
      st'.current_row = some mov ∧ st'.previous_saldo = some (2 : ℚ) ∧
      mov.saldo = (2 : ℚ) := by
  constructor
  · with_unfolding_all decide
  · exact stdr_pending_updates_previous_saldo ⟨none, none, some 0, true, false, none⟩
      ("01/01/24 Transferencia Recibida $ 1,00 $ 2,00".data)
      ((reMatch linea_movimiento_stdr
        ("01/01/24 Transferencia Recibida $ 1,00 $ 2,00".data)).iget)
      ("$ 1,00".data) ("$ 2,00".data) 1 2 rfl (by with_unfolding_all rfl)
      (by with_unfolding_all rfl) (by with_unfolding_all rfl)
      (by with_unfolding_all rfl) (by with_unfolding_all rfl)
      (Or.inl (by with_unfolding_all rfl))

/-- C9 (amended).  For every non-empty movement list, `build_summary`
drops exactly the rows whose reference is `"Saldo Inicial"` (the
Santander sentinel — the HSBC sentinel `"SALDO ANTERIOR"` is not
excluded, see the counterexample), groups the remaining movements by
reference (one duplicate-free row per occurring reference), sums each
group's amounts and counts its rows, computes the percentage shares of
absolute amount sum and of count, and ends with a `TOTAL` row whose
numeric columns are the column sums of the group rows. -/
theorem build_summary_grouping (movs : List Movement) (hne : movs ≠ []) :
    ∃ rows total, build_summary movs = rows ++ [total] ∧
      total.referencia = "TOTAL".data ∧
      total.sum_importe = (rows.map (fun r => r.sum_importe)).sum ∧
      total.cantidad = (rows.map (fun r => r.cantidad)).sum ∧
      total.pct_importe = (rows.map (fun r => r.pct_importe)).sum ∧
      total.pct_cantidad = (rows.map (fun r => r.pct_cantidad)).sum ∧
      (rows.map (fun r => r.referencia)).Nodup ∧
      (∀ k, (k ∈ rows.map (fun r => r.referencia)) ↔
        (k ∈ (summaryWork movs).map (fun mv => mv.referencia))) ∧
      ∀ row ∈ rows,
        row.sum_importe = sumImporte (summaryGroup (summaryWork movs) row.referencia) ∧
        row.cantidad = (summaryGroup (summaryWork movs) row.referencia).length ∧
        row.pct_importe = (if (rows.map (fun r => |r.sum_importe|)).sum = 0 then 0
          else pyRoundAt 4
            (|row.sum_importe| / (rows.map (fun r => |r.sum_importe|)).sum * 100)) ∧
        row.pct_cantidad =
          pyRoundAt 4 ((row.cantidad : ℚ) /
            (((rows.map (fun r => r.cantidad)).sum : ℕ) : ℚ) * 100) := by
  unfold build_summary
  rw [if_neg hne]
  dsimp only
  refine ⟨_, _, rfl, rfl, rfl, rfl, rfl, rfl, ?_, ?_, ?_⟩
  · rw [List.map_map]
    show (List.map (fun k => k) (summaryKeys (summaryWork movs))).Nodup
    rw [List.map_id']
    exact nodup_sortKeys _ (List.nodup_dedup _)
  · intro k
    rw [List.map_map]
    show (k ∈ List.map (fun k => k) (summaryKeys (summaryWork movs))) ↔ _
    rw [List.map_id']
    show k ∈ sortKeys ((summaryWork movs).map (fun m => m.referencia)).dedup ↔ _
    rw [mem_sortKeys, List.mem_dedup]
  · intro row hrow
    obtain ⟨k, hk, rfl⟩ := List.mem_map.mp hrow
    refine ⟨rfl, rfl, ?_, ?_⟩
    · rw [List.map_map]
      rfl
    · rw [List.map_map]
      rfl

/-- C9 (witness).  The one-movement list `[⟨none, "A", 1, 1⟩]` is
non-empty, and its summary satisfies the full grouping description. -/
theorem build_summary_grouping_witness :
    (([⟨none, "A".data, some (1 : ℚ), 1⟩] : List Movement) ≠ []) ∧
    (∃ rows total,
      build_summary [⟨none, "A".data, some (1 : ℚ), 1⟩] = rows ++ [total] ∧
      total.referencia = "TOTAL".data ∧
      total.sum_importe = (rows.map (fun r => r.sum_importe)).sum ∧
      total.cantidad = (rows.map (fun r => r.cantidad)).sum ∧
      total.pct_importe = (rows.map (fun r => r.pct_importe)).sum ∧
      total.pct_cantidad = (rows.map (fun r => r.pct_cantidad)).sum ∧
      (rows.map (fun r => r.referencia)).Nodup ∧
      (∀ k, (k ∈ rows.map (fun r => r.referencia)) ↔
        (k ∈ (summaryWork [⟨none, "A".data, some (1 : ℚ), 1⟩]).map
          (fun mv => mv.referencia))) ∧
      ∀ row ∈ rows,
        row.sum_importe = sumImporte (summaryGroup
          (summaryWork [⟨none, "A".data, some (1 : ℚ), 1⟩]) row.referencia) ∧
        row.cantidad = (summaryGroup
          (summaryWork [⟨none, "A".data, some (1 : ℚ), 1⟩]) row.referencia).length ∧
        row.pct_importe = (if (rows.map (fun r => |r.sum_importe|)).sum = 0 then 0
          else pyRoundAt 4
            (|row.sum_importe| / (rows.map (fun r => |r.sum_importe|)).sum * 100)) ∧
        row.pct_cantidad =
          pyRoundAt 4 ((row.cantidad : ℚ) /
            (((rows.map (fun r => r.cantidad)).sum : ℕ) : ℚ) * 100)) := by
  constructor
  · intro hcon
    cases hcon
  · exact build_summary_grouping [⟨none, "A".data, some (1 : ℚ), 1⟩]
      (fun hcon => by cases hcon)

end OCRExtract
